import Mathlib

/-!
Verification of the FarmIT-server Flask application (src/app.py).

The application is a single HTTP route, POST /calculate_indices, that
validates a JSON body, builds an Earth Engine expression client-side
(image collection filtering, band math, clipping, visualization) and
requests a thumbnail URL from the imagery platform.  We embed:

  * JSON values as an inductive type, with the Python semantics of the
    operations the handler applies to them (the `in` membership test,
    subscripting, and `.upper()`), each returning `Except` to model the
    exceptions Python raises on ill-typed values;
  * the Earth Engine client-side expression builders as an AST
    (`EECol`, `EEImg`) mirroring exactly the method calls the source
    performs, together with a per-band scalar semantics (`SExpr`,
    `EEImg.sem`) describing the pixelwise formula of each named band;
  * the route handler `calculate_indices` itself, parameterised by the
    outcomes of the external steps (credential check, geometry
    construction, thumbnail fetch, credential reinitialization), one
    `AttemptEnv` per attempt; the recursive retry in the source's
    `except ee.EEException` branch consumes the next environment.
    The handler also produces a trace of the externally visible events
    (credential refresh, reinitialization, thumbnail requests).
-/

/-- JSON values as parsed by Flask `request.json`. -/
inductive Json where
  | null
  | bool (b : Bool)
  | num (n : Int)
  | str (s : String)
  | arr (elems : List Json)
  | obj (fields : List (String × Json))

/-- Pixelwise scalar expressions: the per-band semantics of the Earth
Engine band math the handler requests. `band n` is the raw value of band
`n` of the source composite. -/
inductive SExpr where
  | band (name : String)
  | const (c : Rat)
  | add (a b : SExpr)
  | sub (a b : SExpr)
  | mul (a b : SExpr)
  | div (a b : SExpr)
  | powN (a : SExpr) (n : Nat)
  | sqrt (a : SExpr)
deriving DecidableEq, Repr

/-- Client-side image-collection expressions, mirroring
`ee.ImageCollection(name)`, `.filterDate(a, b)` and
`.filter(ee.Filter.lt(prop, bound))` from the source. -/
inductive EECol where
  | imageCollection (name : String)
  | filterDate (c : EECol) (startDate endDate : String)
  | filterLt (c : EECol) (prop : String) (bound : Int)
deriving DecidableEq, Repr

/-- Client-side image expressions, one constructor per Earth Engine
method the source calls.  `addBands4 i a b c d` models
`i.addBands([a, b, c, d])` (the source always passes a four-element
list).  Constant arithmetic (`multiplyConst` etc.) models the calls
`.multiply(2)`, `.add(1)`, `.pow(2)`, `.divide(2)`, `.multiply(8)`
whose argument is a number. -/
inductive EEImg where
  | median (c : EECol)
  | normalizedDifference (img : EEImg) (bandA bandB : String)
  | rename (img : EEImg) (name : String)
  | select (img : EEImg) (bandName : String)
  | multiplyConst (img : EEImg) (c : Rat)
  | addConst (img : EEImg) (c : Rat)
  | subtract (img other : EEImg)
  | powConst (img : EEImg) (n : Nat)
  | sqrt (img : EEImg)
  | divideConst (img : EEImg) (c : Rat)
  | addBands4 (img b1 b2 b3 b4 : EEImg)
  | clip (img : EEImg) (geom : Json)
  | visualize (img : EEImg) (minValue maxValue : Int) (palette : List String)

/-- The collection expression built at src/app.py lines 63-66:
`ee.ImageCollection('COPERNICUS/S2_HARMONIZED').filterDate('2023-06-01',
'2023-08-31').filter(ee.Filter.lt('CLOUDY_PIXEL_PERCENTAGE', 20)).median()`. -/
def collection : EEImg :=
  .median (.filterLt (.filterDate (.imageCollection "COPERNICUS/S2_HARMONIZED")
    "2023-06-01" "2023-08-31") "CLOUDY_PIXEL_PERCENTAGE" 20)

/-- The inner helper `calculate_indices(image)` of src/app.py lines 69-85:
adds the NDVI, RECI, NDMI and MSAVI bands to the image. -/
def calculate_indices_image (image : EEImg) : EEImg :=
  let ndvi := (image.normalizedDifference "B8" "B4").rename "NDVI"
  let reci := (image.normalizedDifference "B8" "B5").rename "RECI"
  let ndmi := (image.normalizedDifference "B8" "B11").rename "NDMI"
  let nir := image.select "B8"
  let red := image.select "B4"
  let msavi :=
    ((((nir.multiplyConst 2).addConst 1).subtract
      ((((nir.multiplyConst 2).addConst 1).powConst 2).subtract
        ((nir.subtract red).multiplyConst 8)).sqrt).divideConst 2).rename "MSAVI"
  image.addBands4 ndvi reci ndmi msavi

/-- Look a band up by name in a band list. -/
def bandLookup (bands : List (String × SExpr)) (name : String) : Option SExpr :=
  (bands.find? (fun p => p.1 == name)).map Prod.snd

/-- The spectral bands of the Sentinel-2 harmonized collection that the
median composite carries (the subset relevant to this program plus the
other spectral bands). -/
def baseBandNames : List String :=
  ["B1", "B2", "B3", "B4", "B5", "B6", "B7", "B8", "B8A", "B9", "B11", "B12"]

/-- Per-band scalar semantics of an image expression: the list of named
bands together with the pixelwise formula of each, or `none` when the
expression is not band-valued in a way this development needs (e.g. a
rename of a multi-band image).  Pointwise arithmetic applies to every
band; `subtract` of two single-band images subtracts their formulas and
keeps the first image's band name; `clip` leaves band formulas
unchanged (it only restricts the region). -/
def EEImg.sem : EEImg → Option (List (String × SExpr))
  | .median _ => some (baseBandNames.map (fun n => (n, .band n)))
  | .normalizedDifference i a b => do
      let bs ← EEImg.sem i
      let x ← bandLookup bs a
      let y ← bandLookup bs b
      pure [("nd", .div (.sub x y) (.add x y))]
  | .rename i n => do
      let bs ← EEImg.sem i
      match bs with
      | [(_, e)] => pure [(n, e)]
      | _ => none
  | .select i b => do
      let bs ← EEImg.sem i
      let e ← bandLookup bs b
      pure [(b, e)]
  | .multiplyConst i c =>
      (EEImg.sem i).map (List.map (fun p => (p.1, SExpr.mul p.2 (.const c))))
  | .addConst i c =>
      (EEImg.sem i).map (List.map (fun p => (p.1, SExpr.add p.2 (.const c))))
  | .subtract i j => do
      let bs ← EEImg.sem i
      let cs ← EEImg.sem j
      match bs, cs with
      | [(n, x)], [(_, y)] => pure [(n, SExpr.sub x y)]
      | _, _ => none
  | .powConst i n =>
      (EEImg.sem i).map (List.map (fun p => (p.1, SExpr.powN p.2 n)))
  | .sqrt i =>
      (EEImg.sem i).map (List.map (fun p => (p.1, SExpr.sqrt p.2)))
  | .divideConst i c =>
      (EEImg.sem i).map (List.map (fun p => (p.1, SExpr.div p.2 (.const c))))
  | .addBands4 i a b c d => do
      let bs ← EEImg.sem i
      let xa ← EEImg.sem a
      let xb ← EEImg.sem b
      let xc ← EEImg.sem c
      let xd ← EEImg.sem d
      pure (bs ++ xa ++ xb ++ xc ++ xd)
  | .clip i _ => EEImg.sem i
  | .visualize _ _ _ _ => none

/-- The pixelwise formula of a named band of an image expression. -/
def bandFormula (img : EEImg) (name : String) : Option SExpr :=
  (EEImg.sem img).bind (fun bs => bandLookup bs name)

/-- Evaluate a scalar expression over the rationals, with an arbitrary
interpretation `sq` of the square root and an environment `env` giving
the raw band values.  Quantifying over `sq` keeps the evaluator
computable while still pinning the algebraic shape of each formula. -/
def SExpr.evalW (sq : Rat → Rat) (env : String → Rat) : SExpr → Rat
  | .band n => env n
  | .const c => c
  | .add a b => SExpr.evalW sq env a + SExpr.evalW sq env b
  | .sub a b => SExpr.evalW sq env a - SExpr.evalW sq env b
  | .mul a b => SExpr.evalW sq env a * SExpr.evalW sq env b
  | .div a b => SExpr.evalW sq env a / SExpr.evalW sq env b
  | .powN a n => SExpr.evalW sq env a ^ n
  | .sqrt a => sq (SExpr.evalW sq env a)

/-- Python `str.upper()`: upper-case every character (the index names
are ASCII). -/
def pyStrUpper (s : String) : String := ⟨s.data.map Char.toUpper⟩

/-- Whether `needle` occurs as a substring of `hay` (Python `x in str`). -/
def substrOccurs (hay needle : String) : Bool :=
  (hay.splitOn needle).length > 1

/-- The Python type name of a JSON value, used in exception messages. -/
def typeName : Json → String
  | .null => "NoneType"
  | .bool _ => "bool"
  | .num _ => "int"
  | .str _ => "str"
  | .arr _ => "list"
  | .obj _ => "dict"

/-- Python membership test `key in data` on a parsed JSON value:
key lookup on a dict, element equality on a list, substring test on a
string; a `TypeError` on `None`, numbers and booleans. -/
def pyContains (data : Json) (key : String) : Except String Bool :=
  match data with
  | .obj kvs => .ok (kvs.any (fun p => p.1 == key))
  | .arr xs => .ok (xs.any (fun x => match x with | .str s => s == key | _ => false))
  | .str s => .ok (substrOccurs s key)
  | other => .error ("argument of type " ++ typeName other ++ " is not iterable")

/-- Python subscription `data[key]` with a string key. -/
def pyGetItem (data : Json) (key : String) : Except String Json :=
  match data with
  | .obj kvs =>
      match kvs.find? (fun p => p.1 == key) with
      | some p => .ok p.2
      | none => .error ("KeyError: " ++ key)
  | .arr _ => .error "list indices must be integers or slices, not str"
  | .str _ => .error "string indices must be integers"
  | other => .error (typeName other ++ " object is not subscriptable")

/-- Python `v.upper()`: defined on strings, an `AttributeError` otherwise. -/
def pyUpper (v : Json) : Except String String :=
  match v with
  | .str s => .ok (pyStrUpper s)
  | other => .error (typeName other ++ " object has no attribute upper")

/-- Visualization parameters: the `vis_params` dictionary of the source. -/
structure VisParams where
  minValue : Int
  maxValue : Int
  palette : List String
deriving DecidableEq, Repr

/-- The if/elif chain of src/app.py lines 91-112: maps the upper-cased
index to the selected band name and its fixed visualization parameters,
or `none` for the `Invalid index specified` branch. -/
def selectVis (index : String) : Option (String × VisParams) :=
  if index = "NDVI" then
    some ("NDVI", ⟨0, 1, ["#8B4513", "#FF0000", "#FFFF00", "#008000"]⟩)
  else if index = "RECI" then
    some ("RECI", ⟨0, 5, ["#8B0000", "#FFA500", "#FFFF00", "#90EE90", "#006400"]⟩)
  else if index = "NDMI" then
    some ("NDMI", ⟨-1, 1, ["#3B2C1C", "#FF0000", "#FFFF00", "#90EE90", "#00008B"]⟩)
  else if index = "MSAVI" then
    some ("MSAVI", ⟨0, 1, ["#3B2C1C", "#FF0000", "#FFA500", "#90EE90", "#006400"]⟩)
  else
    none

/-- An exception from an external step: either an `ee.EEException` or
any other Python exception, with its message. -/
inductive Exn where
  | ee (msg : String)
  | py (msg : String)

/-- Outcome of `ensure_earth_engine_initialized()`: success (recording
whether the credentials were absent/expired and hence refreshed), or an
exception raised by the reinitialization. -/
inductive EnsureRes where
  | ok (refreshed : Bool)
  | raise (e : Exn)

/-- Outcome of `ee.Geometry.Polygon(coordinates)`. -/
inductive GeomRes where
  | ok
  | raise (e : Exn)

/-- Outcome of `getThumbURL`, the call that contacts the imagery platform. -/
inductive ThumbRes where
  | ok (url : String)
  | raise (e : Exn)

/-- Outcome of `initialize_earth_engine()` inside the `except
ee.EEException` branch. -/
inductive ReinitRes where
  | ok
  | fail (msg : String)

/-- The environment of one attempt of the handler: the outcomes of each
external step, should the attempt reach it. -/
structure AttemptEnv where
  ensure : EnsureRes
  geom : GeomRes
  thumb : ThumbRes
  reinit : ReinitRes

/-- A thumbnail request as issued at src/app.py lines 122-126: the
visualized image, and the `region`, `dimensions` and `format` options. -/
structure ThumbReq where
  image : EEImg
  region : Json
  dimensions : Int
  format : String

/-- Externally visible events of a handler run. -/
inductive TraceEntry where
  | credRefresh
  | reinit (success : Bool)
  | thumb (req : ThumbReq)

abbrev Trace := List TraceEntry

/-- An HTTP response: status code and JSON body. -/
structure Response where
  status : Nat
  body : Json

/-- A JSON error body `{"error": msg}` as produced by `jsonify`. -/
def errorBody (msg : String) : Json := .obj [("error", .str msg)]

/-- Result of the `try` block of the handler: a normal return, an
escaped `ee.EEException`, or another escaped exception — each with the
trace of external events of this attempt. -/
inductive TryResult where
  | success (r : Response) (t : Trace)
  | eeExn (msg : String) (t : Trace)
  | pyExn (msg : String) (t : Trace)

/-- The trace of a `TryResult`. -/
def TryResult.trace : TryResult → Trace
  | .success _ t => t
  | .eeExn _ t => t
  | .pyExn _ t => t

/-- The `try` block of `calculate_indices` (src/app.py lines 49-131),
line by line: ensure credentials, parse the body (`none` models an
unparseable body, whose access raises), check `coordinates` and `index`
membership, build the geometry, upper-case the index, select the band
and visualization, and request the thumbnail URL. -/
def tryBody (body : Option Json) (env : AttemptEnv) : TryResult :=
  match env.ensure with
  | .raise (.ee m) => .eeExn m []
  | .raise (.py m) => .pyExn m []
  | .ok refreshed =>
    let t0 : Trace := if refreshed then [.credRefresh] else []
    match body with
    | none => .pyExn "Failed to decode JSON object" t0
    | some data =>
      match pyContains data "coordinates" with
      | .error m => .pyExn m t0
      | .ok hasCoords =>
        if !hasCoords then .success ⟨400, errorBody "No coordinates provided"⟩ t0
        else
          match pyContains data "index" with
          | .error m => .pyExn m t0
          | .ok hasIndex =>
            if !hasIndex then .success ⟨400, errorBody "No index specified"⟩ t0
            else
              match pyGetItem data "coordinates" with
              | .error m => .pyExn m t0
              | .ok coords =>
                match env.geom with
                | .raise (.ee m) => .eeExn m t0
                | .raise (.py m) => .pyExn m t0
                | .ok =>
                  match pyGetItem data "index" with
                  | .error m => .pyExn m t0
                  | .ok idxVal =>
                    match pyUpper idxVal with
                    | .error m => .pyExn m t0
                    | .ok index =>
                      match selectVis index with
                      | none => .success ⟨400, errorBody "Invalid index specified"⟩ t0
                      | some sel =>
                        let indices := (calculate_indices_image collection).clip coords
                        let band := indices.select sel.1
                        let req : ThumbReq :=
                          ⟨band.visualize sel.2.minValue sel.2.maxValue sel.2.palette,
                            coords, 512, "png"⟩
                        match env.thumb with
                        | .raise (.ee m) => .eeExn m (t0 ++ [.thumb req])
                        | .raise (.py m) => .pyExn m (t0 ++ [.thumb req])
                        | .ok url =>
                          .success
                            ⟨200, .obj [("url", .str url), ("coordinates", coords),
                              ("index", .str index)]⟩
                            (t0 ++ [.thumb req])

/-- The route handler `calculate_indices` with its exception handlers
(src/app.py lines 47-145).  An `ee.EEException` triggers
reinitialization and, on success, a recursive re-invocation of the
whole handler, which consumes the next attempt environment; any other
exception yields the generic 500 response.  An empty environment list
means the modelled execution ran out of attempts (`none`: the source
would keep recursing). -/
def calculate_indices (body : Option Json) : List AttemptEnv → Option Response × Trace
  | [] => (none, [])
  | env :: rest =>
    match tryBody body env with
    | .success r t => (some r, t)
    | .pyExn m t =>
        (some ⟨500, errorBody ("An unexpected error occurred: " ++ m)⟩, t)
    | .eeExn _ t =>
        match env.reinit with
        | .fail m =>
            (some ⟨500, errorBody ("Failed to reinitialize Earth Engine: " ++ m)⟩,
              t ++ [.reinit false])
        | .ok =>
            let r2 := calculate_indices body rest
            (r2.1, t ++ [.reinit true] ++ r2.2)

/-- Whether a trace contains a thumbnail request to the imagery platform. -/
def hasThumb : Trace → Bool
  | [] => false
  | .thumb _ :: _ => true
  | _ :: t => hasThumb t

/-- Number of credential reinitializations (retry attempts) in a trace. -/
def countReinit : Trace → Nat
  | [] => 0
  | .reinit _ :: t => countReinit t + 1
  | _ :: t => countReinit t

/-- The visualization parameters of a thumbnail request. -/
def reqVis (r : ThumbReq) : Option VisParams :=
  match r.image with
  | .visualize _ mn mx p => some ⟨mn, mx, p⟩
  | _ => none

/-- The visualization parameters of every thumbnail request in a trace. -/
def thumbVises : Trace → List (Option VisParams)
  | [] => []
  | .thumb r :: t => reqVis r :: thumbVises t
  | _ :: t => thumbVises t

/-- The visualization parameters the handler selects for a request body:
a pure function of the body alone (derived characterisation, proved
against `tryBody` below). -/
def visOf : Option Json → Option VisParams
  | none => none
  | some data =>
    match pyGetItem data "index" with
    | .error _ => none
    | .ok idxVal =>
      match pyUpper idxVal with
      | .error _ => none
      | .ok index => (selectVis index).map (fun sel => sel.2)

/-! Helper lemmas about traces and the selection of visualization
parameters. -/

theorem thumbVises_append (a b : Trace) :
    thumbVises (a ++ b) = thumbVises a ++ thumbVises b := by
  induction a with
  | nil => rfl
  | cons e a ih => cases e <;> simp [thumbVises, ih]

theorem thumbVises_ensureTrace (refreshed : Bool) :
    thumbVises (if refreshed then ([.credRefresh] : Trace) else []) = [] := by
  cases refreshed <;> rfl

/-- Every thumbnail request issued by one attempt of the `try` block
carries the visualization parameters `visOf body`. -/
theorem thumbVises_tryBody (body : Option Json) (env : AttemptEnv) (v : Option VisParams)
    (hv : v ∈ thumbVises (tryBody body env).trace) : v = visOf body := by
  obtain ⟨ens, g, th, re⟩ := env
  cases ens with
  | raise e =>
      cases e <;> simp [tryBody, TryResult.trace, thumbVises] at hv
  | ok refreshed =>
      cases body with
      | none =>
          simp only [tryBody, TryResult.trace] at hv
          rw [thumbVises_ensureTrace] at hv
          simp at hv
      | some data =>
          simp only [tryBody] at hv
          repeat' split at hv
          all_goals
            simp_all [TryResult.trace, thumbVises, thumbVises_append,
              thumbVises_ensureTrace, visOf, reqVis]

/-- Every thumbnail request issued by the whole handler (across all
retry attempts) carries the visualization parameters `visOf body`. -/
theorem thumbVises_run (body : Option Json) :
    ∀ (envs : List AttemptEnv) (v : Option VisParams),
      v ∈ thumbVises (calculate_indices body envs).2 → v = visOf body := by
  intro envs
  induction envs with
  | nil =>
      intro v hv
      simp [calculate_indices, thumbVises] at hv
  | cons env rest ih =>
      intro v hv
      unfold calculate_indices at hv
      cases h : tryBody body env with
      | success r t =>
          rw [h] at hv
          exact thumbVises_tryBody body env v (by rw [h]; exact hv)
      | pyExn m t =>
          rw [h] at hv
          exact thumbVises_tryBody body env v (by rw [h]; exact hv)
      | eeExn m t =>
          rw [h] at hv
          cases hre : env.reinit with
          | fail fm =>
              rw [hre] at hv
              simp [thumbVises_append, thumbVises] at hv
              exact thumbVises_tryBody body env v (by rw [h]; exact hv)
          | ok =>
              rw [hre] at hv
              simp [thumbVises_append, thumbVises] at hv
              rcases hv with hv | hv
              · exact thumbVises_tryBody body env v (by rw [h]; exact hv)
              · exact ih v hv

/-! The claim theorems. -/

/-- C1: a POST /calculate_indices request whose JSON body lacks
`coordinates` gets HTTP 400 with body `{"error": "No coordinates provided"}`,
and one whose body has `coordinates` but lacks `index` gets HTTP 400 with
body `{"error": "No index specified"}`; in both cases no request is issued
to the imagery platform (provided the credential check at the top of the
handler succeeds, which runs before validation). -/
theorem validation_missing_fields_400 :
    (∀ (data : Json) (refreshed : Bool) (g : GeomRes) (th : ThumbRes) (re : ReinitRes)
        (rest : List AttemptEnv),
      pyContains data "coordinates" = .ok false →
      calculate_indices (some data) (⟨.ok refreshed, g, th, re⟩ :: rest)
          = (some ⟨400, errorBody "No coordinates provided"⟩,
              if refreshed then [.credRefresh] else [])
        ∧ hasThumb (calculate_indices (some data) (⟨.ok refreshed, g, th, re⟩ :: rest)).2
            = false)
    ∧ (∀ (data : Json) (refreshed : Bool) (g : GeomRes) (th : ThumbRes) (re : ReinitRes)
        (rest : List AttemptEnv),
      pyContains data "coordinates" = .ok true →
      pyContains data "index" = .ok false →
      calculate_indices (some data) (⟨.ok refreshed, g, th, re⟩ :: rest)
          = (some ⟨400, errorBody "No index specified"⟩,
              if refreshed then [.credRefresh] else [])
        ∧ hasThumb (calculate_indices (some data) (⟨.ok refreshed, g, th, re⟩ :: rest)).2
            = false) := by
  constructor
  · intro data refreshed g th re rest h
    have ht : tryBody (some data) ⟨.ok refreshed, g, th, re⟩
        = .success ⟨400, errorBody "No coordinates provided"⟩
            (if refreshed then [.credRefresh] else []) := by
      simp [tryBody, h]
    have hrun : calculate_indices (some data) (⟨.ok refreshed, g, th, re⟩ :: rest)
        = (some ⟨400, errorBody "No coordinates provided"⟩,
            if refreshed then [.credRefresh] else []) := by
      unfold calculate_indices
      rw [ht]
    refine ⟨hrun, ?_⟩
    rw [hrun]
    cases refreshed <;> rfl
  · intro data refreshed g th re rest h1 h2
    have ht : tryBody (some data) ⟨.ok refreshed, g, th, re⟩
        = .success ⟨400, errorBody "No index specified"⟩
            (if refreshed then [.credRefresh] else []) := by
      simp [tryBody, h1, h2]
    have hrun : calculate_indices (some data) (⟨.ok refreshed, g, th, re⟩ :: rest)
        = (some ⟨400, errorBody "No index specified"⟩,
            if refreshed then [.credRefresh] else []) := by
      unfold calculate_indices
      rw [ht]
    refine ⟨hrun, ?_⟩
    rw [hrun]
    cases refreshed <;> rfl

theorem validation_missing_fields_400_witness :
    (pyContains (.obj []) "coordinates" = .ok false
      ∧ calculate_indices (some (.obj [])) [⟨.ok false, .ok, .ok "u", .ok⟩]
          = (some ⟨400, errorBody "No coordinates provided"⟩, []))
    ∧ (pyContains (.obj [("coordinates", .null)]) "coordinates" = .ok true
      ∧ pyContains (.obj [("coordinates", .null)]) "index" = .ok false
      ∧ calculate_indices (some (.obj [("coordinates", .null)]))
            [⟨.ok false, .ok, .ok "u", .ok⟩]
          = (some ⟨400, errorBody "No index specified"⟩, [])) :=
  ⟨⟨rfl, (validation_missing_fields_400.1 (.obj []) false .ok (.ok "u") .ok [] rfl).1⟩,
    ⟨rfl, rfl,
      (validation_missing_fields_400.2 (.obj [("coordinates", .null)]) false .ok (.ok "u")
        .ok [] rfl rfl).1⟩⟩

/-- C2: a POST /calculate_indices request with both fields present and a
valid index returns HTTP 200 with a JSON body holding exactly the keys
url, coordinates and index, where `index` is the upper-cased input index
and `coordinates` is echoed unchanged (provided the credential check,
the geometry construction and the thumbnail fetch succeed). -/
theorem valid_request_success_200 (coords : Json) (idxStr url : String)
    (refreshed : Bool) (re : ReinitRes) (rest : List AttemptEnv)
    (h : (selectVis (pyStrUpper idxStr)).isSome = true) :
    (calculate_indices (some (.obj [("coordinates", coords), ("index", .str idxStr)]))
        (⟨.ok refreshed, .ok, .ok url, re⟩ :: rest)).1
      = some ⟨200, .obj [("url", .str url), ("coordinates", coords),
          ("index", .str (pyStrUpper idxStr))]⟩ := by
  obtain ⟨sel, hsel⟩ := Option.isSome_iff_exists.mp h
  have h1 : pyContains (.obj [("coordinates", coords), ("index", .str idxStr)])
      "coordinates" = .ok true := rfl
  have h2 : pyContains (.obj [("coordinates", coords), ("index", .str idxStr)])
      "index" = .ok true := rfl
  have h3 : pyGetItem (.obj [("coordinates", coords), ("index", .str idxStr)])
      "coordinates" = .ok coords := rfl
  have h4 : pyGetItem (.obj [("coordinates", coords), ("index", .str idxStr)])
      "index" = .ok (.str idxStr) := rfl
  have ht : tryBody (some (.obj [("coordinates", coords), ("index", .str idxStr)]))
      ⟨.ok refreshed, .ok, .ok url, re⟩
      = .success ⟨200, .obj [("url", .str url), ("coordinates", coords),
          ("index", .str (pyStrUpper idxStr))]⟩
        ((if refreshed then [.credRefresh] else [])
          ++ [.thumb ⟨((((calculate_indices_image collection).clip coords).select
                sel.1).visualize sel.2.minValue sel.2.maxValue sel.2.palette),
              coords, 512, "png"⟩]) := by
    simp [tryBody, h1, h2, h3, h4, pyUpper, hsel]
  unfold calculate_indices
  rw [ht]

theorem valid_request_success_200_witness :
    (selectVis (pyStrUpper "ndvi")).isSome = true
    ∧ (calculate_indices
        (some (.obj [("coordinates", .arr []), ("index", .str "ndvi")]))
        [⟨.ok false, .ok, .ok "thumb-url", .ok⟩]).1
      = some ⟨200, .obj [("url", .str "thumb-url"), ("coordinates", .arr []),
          ("index", .str (pyStrUpper "ndvi"))]⟩ :=
  ⟨by decide,
    valid_request_success_200 (.arr []) "ndvi" "thumb-url" false .ok [] (by decide)⟩

/-- C3: with both fields present, an index whose upper-casing is not in
{NDVI, RECI, NDMI, MSAVI} gets HTTP 400 with body
`{"error": "Invalid index specified"}` (provided the credential check and
the geometry construction succeed); and membership is decided on the
upper-cased index, so exactly the strings whose upper-casing is one of
the four names are accepted by the selection. -/
theorem invalid_index_400_case_insensitive :
    (∀ (coords : Json) (idxStr : String) (refreshed : Bool) (th : ThumbRes)
        (re : ReinitRes) (rest : List AttemptEnv),
      selectVis (pyStrUpper idxStr) = none →
      calculate_indices (some (.obj [("coordinates", coords), ("index", .str idxStr)]))
          (⟨.ok refreshed, .ok, th, re⟩ :: rest)
        = (some ⟨400, errorBody "Invalid index specified"⟩,
            if refreshed then [.credRefresh] else []))
    ∧ (∀ s : String,
        (selectVis (pyStrUpper s)).isSome = true
          ↔ (pyStrUpper s = "NDVI" ∨ pyStrUpper s = "RECI" ∨ pyStrUpper s = "NDMI"
              ∨ pyStrUpper s = "MSAVI")) := by
  constructor
  · intro coords idxStr refreshed th re rest hsel
    have h1 : pyContains (.obj [("coordinates", coords), ("index", .str idxStr)])
        "coordinates" = .ok true := rfl
    have h2 : pyContains (.obj [("coordinates", coords), ("index", .str idxStr)])
        "index" = .ok true := rfl
    have h3 : pyGetItem (.obj [("coordinates", coords), ("index", .str idxStr)])
        "coordinates" = .ok coords := rfl
    have h4 : pyGetItem (.obj [("coordinates", coords), ("index", .str idxStr)])
        "index" = .ok (.str idxStr) := rfl
    have ht : tryBody (some (.obj [("coordinates", coords), ("index", .str idxStr)]))
        ⟨.ok refreshed, .ok, th, re⟩
        = .success ⟨400, errorBody "Invalid index specified"⟩
            (if refreshed then [.credRefresh] else []) := by
      simp [tryBody, h1, h2, h3, h4, pyUpper, hsel]
    unfold calculate_indices
    rw [ht]
  · intro s
    unfold selectVis
    split_ifs with hA hB hC hD <;> simp_all

theorem invalid_index_400_case_insensitive_witness :
    (selectVis (pyStrUpper "bogus") = none
      ∧ calculate_indices
          (some (.obj [("coordinates", .arr []), ("index", .str "bogus")]))
          [⟨.ok false, .ok, .ok "u", .ok⟩]
        = (some ⟨400, errorBody "Invalid index specified"⟩, []))
    ∧ (selectVis (pyStrUpper "msavi")).isSome = true :=
  ⟨⟨by decide,
      invalid_index_400_case_insensitive.1 (.arr []) "bogus" false (.ok "u") .ok []
        (by decide)⟩,
    (invalid_index_400_case_insensitive.2 "msavi").mpr (by decide)⟩

/-- C4: the visualization spec is the fixed function `selectVis` of the
upper-cased index value, with exactly the min/max/palette table of the
source, and the visualization parameters of any thumbnail request the
handler issues are determined by the index alone, never by the
coordinates. -/
theorem visualization_spec_table :
    selectVis "NDVI"
        = some ("NDVI", ⟨0, 1, ["#8B4513", "#FF0000", "#FFFF00", "#008000"]⟩)
    ∧ selectVis "RECI"
        = some ("RECI", ⟨0, 5, ["#8B0000", "#FFA500", "#FFFF00", "#90EE90", "#006400"]⟩)
    ∧ selectVis "NDMI"
        = some ("NDMI", ⟨-1, 1, ["#3B2C1C", "#FF0000", "#FFFF00", "#90EE90", "#00008B"]⟩)
    ∧ selectVis "MSAVI"
        = some ("MSAVI", ⟨0, 1, ["#3B2C1C", "#FF0000", "#FFA500", "#90EE90", "#006400"]⟩)
    ∧ (∀ (coords : Json) (idxStr : String) (envs : List AttemptEnv) (v : Option VisParams),
        v ∈ thumbVises (calculate_indices
            (some (.obj [("coordinates", coords), ("index", .str idxStr)])) envs).2 →
        v = (selectVis (pyStrUpper idxStr)).map (fun sel => sel.2)) := by
  refine ⟨by decide, by decide, by decide, by decide, ?_⟩
  intro coords idxStr envs v hv
  have h := thumbVises_run
    (some (.obj [("coordinates", coords), ("index", .str idxStr)])) envs v hv
  rw [h]
  rfl

theorem visualization_spec_table_witness :
    (some (⟨0, 1, ["#8B4513", "#FF0000", "#FFFF00", "#008000"]⟩ : VisParams)
        ∈ thumbVises (calculate_indices
            (some (.obj [("coordinates", .arr []), ("index", .str "Ndvi")]))
            [⟨.ok false, .ok, .ok "u", .ok⟩]).2)
    ∧ (some (⟨0, 1, ["#8B4513", "#FF0000", "#FFFF00", "#008000"]⟩ : VisParams)
        = (selectVis (pyStrUpper "Ndvi")).map (fun sel => sel.2)) :=
  ⟨by decide,
    visualization_spec_table.2.2.2.2 (.arr []) "Ndvi" [⟨.ok false, .ok, .ok "u", .ok⟩]
      (some ⟨0, 1, ["#8B4513", "#FF0000", "#FFFF00", "#008000"]⟩) (by decide)⟩

/-- C8: the selection of visualization parameters is deterministic: any
two thumbnail requests issued by handler runs on the same request body
carry the same visualization parameters, whatever the environments
(credential state, external outcomes) of the two runs. -/
theorem vis_params_deterministic (body : Option Json)
    (envs1 envs2 : List AttemptEnv) (v1 v2 : Option VisParams)
    (h1 : v1 ∈ thumbVises (calculate_indices body envs1).2)
    (h2 : v2 ∈ thumbVises (calculate_indices body envs2).2) : v1 = v2 := by
  rw [thumbVises_run body envs1 v1 h1, thumbVises_run body envs2 v2 h2]

theorem vis_params_deterministic_witness :
    (some (⟨0, 5, ["#8B0000", "#FFA500", "#FFFF00", "#90EE90", "#006400"]⟩ : VisParams)
        ∈ thumbVises (calculate_indices
            (some (.obj [("coordinates", .arr []), ("index", .str "reci")]))
            [⟨.ok false, .ok, .ok "urlA", .ok⟩]).2)
    ∧ (some (⟨0, 5, ["#8B0000", "#FFA500", "#FFFF00", "#90EE90", "#006400"]⟩ : VisParams)
        ∈ thumbVises (calculate_indices
            (some (.obj [("coordinates", .arr []), ("index", .str "reci")]))
            [⟨.ok true, .ok, .ok "urlB", .fail "x"⟩]).2)
    ∧ (some (⟨0, 5, ["#8B0000", "#FFA500", "#FFFF00", "#90EE90", "#006400"]⟩ : VisParams)
        = some (⟨0, 5, ["#8B0000", "#FFA500", "#FFFF00", "#90EE90", "#006400"]⟩ : VisParams)) :=
  ⟨by decide, by decide,
    vis_params_deterministic
      (some (.obj [("coordinates", .arr []), ("index", .str "reci")]))
      [⟨.ok false, .ok, .ok "urlA", .ok⟩] [⟨.ok true, .ok, .ok "urlB", .fail "x"⟩]
      _ _ (by decide) (by decide)⟩

/-- C5: in the image the handler builds, the NDVI, RECI and NDMI bands
are the normalized differences (A-B)/(A+B) of the band pairs (B8,B4),
(B8,B5) and (B8,B11), and the MSAVI band is
(2*NIR + 1 - sqrt((2*NIR + 1)^2 - 8*(NIR - Red))) / 2 with NIR = B8 and
Red = B4 — for every interpretation `sq` of the square root and every
assignment `env` of raw band values. -/
theorem band_formulas_match_spec (sq : Rat → Rat) (env : String → Rat) :
    (bandFormula (calculate_indices_image collection) "NDVI").map (SExpr.evalW sq env)
      = some ((env "B8" - env "B4") / (env "B8" + env "B4"))
    ∧ (bandFormula (calculate_indices_image collection) "RECI").map (SExpr.evalW sq env)
      = some ((env "B8" - env "B5") / (env "B8" + env "B5"))
    ∧ (bandFormula (calculate_indices_image collection) "NDMI").map (SExpr.evalW sq env)
      = some ((env "B8" - env "B11") / (env "B8" + env "B11"))
    ∧ (bandFormula (calculate_indices_image collection) "MSAVI").map (SExpr.evalW sq env)
      = some ((2 * env "B8" + 1
          - sq ((2 * env "B8" + 1) ^ 2 - 8 * (env "B8" - env "B4"))) / 2) := by
  refine ⟨rfl, rfl, rfl, ?_⟩
  have hb : bandFormula (calculate_indices_image collection) "MSAVI"
      = some (.div (.sub (.add (.mul (.band "B8") (.const 2)) (.const 1))
          (.sqrt (.sub (.powN (.add (.mul (.band "B8") (.const 2)) (.const 1)) 2)
            (.mul (.sub (.band "B8") (.band "B4")) (.const 8)))))
          (.const 2)) := rfl
  rw [hb]
  show some ((env "B8" * 2 + 1
      - sq ((env "B8" * 2 + 1) ^ 2 - (env "B8" - env "B4") * 8)) / 2) = _
  have harg : (env "B8" * 2 + 1) ^ 2 - (env "B8" - env "B4") * 8
      = (2 * env "B8" + 1) ^ 2 - 8 * (env "B8" - env "B4") := by ring
  rw [harg]
  have hout : (env "B8" * 2 + 1
        - sq ((2 * env "B8" + 1) ^ 2 - 8 * (env "B8" - env "B4"))) / 2
      = (2 * env "B8" + 1
        - sq ((2 * env "B8" + 1) ^ 2 - 8 * (env "B8" - env "B4"))) / 2 := by ring
  rw [hout]

/-- C6 counterexample: a run in which the imagery platform fails twice
and reinitialization succeeds each time performs two automatic
reinitialize-and-retry rounds (and then succeeds), so the retry is not
limited to a single automatic attempt: the recursive re-invocation of
the handler carries its own exception handler and retries again. -/
theorem retry_not_single_counterexample :
    countReinit (calculate_indices
        (some (.obj [("coordinates", .arr []), ("index", .str "ndvi")]))
        [⟨.ok false, .ok, .raise (.ee "computation failed"), .ok⟩,
          ⟨.ok false, .ok, .raise (.ee "computation failed"), .ok⟩,
          ⟨.ok false, .ok, .ok "u", .ok⟩]).2 = 2
    ∧ (calculate_indices
        (some (.obj [("coordinates", .arr []), ("index", .str "ndvi")]))
        [⟨.ok false, .ok, .raise (.ee "computation failed"), .ok⟩,
          ⟨.ok false, .ok, .raise (.ee "computation failed"), .ok⟩,
          ⟨.ok false, .ok, .ok "u", .ok⟩]).1
      = some ⟨200, .obj [("url", .str "u"), ("coordinates", .arr []),
          ("index", .str "NDVI")]⟩ :=
  ⟨rfl, rfl⟩

/-- C6 (amended): when the imagery platform raises an external-service
error, the handler forces credential reinitialization; if the
reinitialization fails the response is HTTP 500 with a JSON error body,
and if it succeeds the handler re-invokes the entire request handling
from the top — a re-invocation that carries its own retry logic, so
retries repeat as long as external errors persist and reinitialization
succeeds (there is no budget of a single attempt). -/
theorem ee_error_reinit_retry_semantics (body : Option Json) (env : AttemptEnv)
    (rest : List AttemptEnv) (m : String) (t : Trace)
    (h : tryBody body env = .eeExn m t) :
    (∀ fm, env.reinit = .fail fm →
      calculate_indices body (env :: rest)
        = (some ⟨500, errorBody ("Failed to reinitialize Earth Engine: " ++ fm)⟩,
            t ++ [.reinit false]))
    ∧ (env.reinit = .ok →
      calculate_indices body (env :: rest)
        = ((calculate_indices body rest).1,
            t ++ [.reinit true] ++ (calculate_indices body rest).2)) := by
  constructor
  · intro fm hr
    simp only [calculate_indices, h, hr]
  · intro hr
    simp only [calculate_indices, h, hr]

theorem ee_error_reinit_retry_semantics_witness :
    (tryBody (some (.obj [])) ⟨.raise (.ee "expired"), .ok, .ok "u", .fail "no creds"⟩
        = .eeExn "expired" [])
    ∧ (⟨.raise (.ee "expired"), .ok, .ok "u", .fail "no creds"⟩ : AttemptEnv).reinit
        = .fail "no creds"
    ∧ calculate_indices (some (.obj []))
          [⟨.raise (.ee "expired"), .ok, .ok "u", .fail "no creds"⟩]
        = (some ⟨500, errorBody "Failed to reinitialize Earth Engine: no creds"⟩,
            [.reinit false]) :=
  ⟨rfl, rfl,
    (ee_error_reinit_retry_semantics (some (.obj []))
      ⟨.raise (.ee "expired"), .ok, .ok "u", .fail "no creds"⟩ [] "expired" [] rfl).1
      "no creds" rfl⟩

/-- C7: for every valid request, the single thumbnail request issued
uses the fixed pipeline: the COPERNICUS/S2_HARMONIZED collection
filtered to dates 2023-06-01 to 2023-08-31 and cloud cover below 20,
reduced by median, index bands added, clipped to the requested polygon,
the selected band visualized with its fixed parameters, and the
thumbnail options region = the polygon, dimensions = 512, format = png. -/
theorem pipeline_fixed_constants (coords : Json) (idxStr url : String)
    (refreshed : Bool) (re : ReinitRes) (rest : List AttemptEnv)
    (sel : String × VisParams) (hsel : selectVis (pyStrUpper idxStr) = some sel) :
    (calculate_indices (some (.obj [("coordinates", coords), ("index", .str idxStr)]))
        (⟨.ok refreshed, .ok, .ok url, re⟩ :: rest)).2
      = (if refreshed then [.credRefresh] else [])
        ++ [.thumb ⟨EEImg.visualize
              (EEImg.select
                (EEImg.clip
                  (calculate_indices_image
                    (EEImg.median (EECol.filterLt
                      (EECol.filterDate (EECol.imageCollection "COPERNICUS/S2_HARMONIZED")
                        "2023-06-01" "2023-08-31")
                      "CLOUDY_PIXEL_PERCENTAGE" 20)))
                  coords)
                sel.1)
              sel.2.minValue sel.2.maxValue sel.2.palette,
            coords, 512, "png"⟩] := by
  have h1 : pyContains (.obj [("coordinates", coords), ("index", .str idxStr)])
      "coordinates" = .ok true := rfl
  have h2 : pyContains (.obj [("coordinates", coords), ("index", .str idxStr)])
      "index" = .ok true := rfl
  have h3 : pyGetItem (.obj [("coordinates", coords), ("index", .str idxStr)])
      "coordinates" = .ok coords := rfl
  have h4 : pyGetItem (.obj [("coordinates", coords), ("index", .str idxStr)])
      "index" = .ok (.str idxStr) := rfl
  have ht : tryBody (some (.obj [("coordinates", coords), ("index", .str idxStr)]))
      ⟨.ok refreshed, .ok, .ok url, re⟩
      = .success ⟨200, .obj [("url", .str url), ("coordinates", coords),
          ("index", .str (pyStrUpper idxStr))]⟩
        ((if refreshed then [.credRefresh] else [])
          ++ [.thumb ⟨((((calculate_indices_image collection).clip coords).select
                sel.1).visualize sel.2.minValue sel.2.maxValue sel.2.palette),
              coords, 512, "png"⟩]) := by
    simp [tryBody, h1, h2, h3, h4, pyUpper, hsel]
  simp only [calculate_indices, ht]
  rfl

theorem pipeline_fixed_constants_witness :
    selectVis (pyStrUpper "NDVI")
        = some ("NDVI", ⟨0, 1, ["#8B4513", "#FF0000", "#FFFF00", "#008000"]⟩)
    ∧ (calculate_indices (some (.obj [("coordinates", .arr []), ("index", .str "NDVI")]))
        [⟨.ok false, .ok, .ok "u", .ok⟩]).2
      = [.thumb ⟨EEImg.visualize
            (EEImg.select
              (EEImg.clip
                (calculate_indices_image
                  (EEImg.median (EECol.filterLt
                    (EECol.filterDate (EECol.imageCollection "COPERNICUS/S2_HARMONIZED")
                      "2023-06-01" "2023-08-31")
                    "CLOUDY_PIXEL_PERCENTAGE" 20)))
                (.arr []))
              "NDVI")
            0 1 ["#8B4513", "#FF0000", "#FFFF00", "#008000"],
          .arr [], 512, "png"⟩] :=
  ⟨rfl,
    pipeline_fixed_constants (.arr []) "NDVI" "u" false .ok []
      ("NDVI", ⟨0, 1, ["#8B4513", "#FF0000", "#FFFF00", "#008000"]⟩) rfl⟩

/-- C9 counterexample: the body of the HTTP 500 response produced by the
generic exception handler is not a fixed message: it embeds the text of
the particular exception, so two different exceptions produce two
different bodies. -/
theorem generic_message_counterexample :
    (calculate_indices (some (.obj []))
        [⟨.raise (.py "boom"), .ok, .ok "u", .ok⟩]).1
      = some ⟨500, errorBody "An unexpected error occurred: boom"⟩
    ∧ (calculate_indices (some (.obj []))
        [⟨.raise (.py "crash"), .ok, .ok "u", .ok⟩]).1
      = some ⟨500, errorBody "An unexpected error occurred: crash"⟩
    ∧ ("An unexpected error occurred: boom" : String)
        ≠ "An unexpected error occurred: crash" :=
  ⟨rfl, rfl, by decide⟩

/-- C9 (amended): every failure that is neither a validation failure nor
an external-service error yields HTTP 500 with a JSON error body whose
message is the fixed prefix "An unexpected error occurred: " followed by
the text of the exception, and no retry happens: the result ignores the
remaining attempts and the trace gains no reinitialization event. -/
theorem unexpected_error_500_with_message (body : Option Json) (env : AttemptEnv)
    (rest : List AttemptEnv) (m : String) (t : Trace)
    (h : tryBody body env = .pyExn m t) :
    calculate_indices body (env :: rest)
      = (some ⟨500, errorBody ("An unexpected error occurred: " ++ m)⟩, t) := by
  simp only [calculate_indices, h]

theorem unexpected_error_500_with_message_witness :
    (tryBody (some (.obj [])) ⟨.raise (.py "boom"), .ok, .ok "u", .ok⟩
        = .pyExn "boom" [])
    ∧ calculate_indices (some (.obj []))
          [⟨.raise (.py "boom"), .ok, .ok "u", .ok⟩,
            ⟨.ok false, .ok, .ok "u", .ok⟩]
        = (some ⟨500, errorBody "An unexpected error occurred: boom"⟩, []) :=
  ⟨rfl,
    unexpected_error_500_with_message (some (.obj []))
      ⟨.raise (.py "boom"), .ok, .ok "u", .ok⟩
      [⟨.ok false, .ok, .ok "u", .ok⟩] "boom" [] rfl⟩

/-- C10 counterexample: a request whose body is a JSON array does not
reach the generic 500 branch: the Python membership test `in` works on
lists, finds no element equal to the string "coordinates", and the
handler returns HTTP 400 with the missing-coordinates error instead. -/
theorem array_body_counterexample :
    ((calculate_indices (some (.arr []))
        [⟨.ok false, .ok, .ok "u", .ok⟩]).1.map Response.status = some 400)
    ∧ ((calculate_indices (some (.arr []))
        [⟨.ok false, .ok, .ok "u", .ok⟩]).1.map Response.status ≠ some 500)
    ∧ (calculate_indices (some (.arr []))
        [⟨.ok false, .ok, .ok "u", .ok⟩]).1
      = some ⟨400, errorBody "No coordinates provided"⟩ :=
  ⟨rfl, by decide, rfl⟩

/-- C10 (amended): a JSON null body, an unparseable (non-JSON) body, and
an `index` value that is present but of any non-string JSON type each
make the handler end in the generic exception branch with HTTP 500 (the
membership test, the body access and the upper-casing raise); a JSON
array body, however, passes the membership test and gets the HTTP 400
missing-coordinates response. -/
theorem non_object_body_500 :
    (∀ (refreshed : Bool) (g : GeomRes) (th : ThumbRes) (re : ReinitRes)
        (rest : List AttemptEnv),
      ((calculate_indices (some .null)
          (⟨.ok refreshed, g, th, re⟩ :: rest)).1.map Response.status) = some 500)
    ∧ (∀ (refreshed : Bool) (g : GeomRes) (th : ThumbRes) (re : ReinitRes)
        (rest : List AttemptEnv),
      ((calculate_indices none
          (⟨.ok refreshed, g, th, re⟩ :: rest)).1.map Response.status) = some 500)
    ∧ (∀ (coords idxVal : Json) (refreshed : Bool) (th : ThumbRes) (re : ReinitRes)
        (rest : List AttemptEnv),
      (∀ s : String, idxVal ≠ .str s) →
      ((calculate_indices
          (some (.obj [("coordinates", coords), ("index", idxVal)]))
          (⟨.ok refreshed, .ok, th, re⟩ :: rest)).1.map Response.status) = some 500)
    ∧ (∀ (elems : List Json) (refreshed : Bool) (g : GeomRes) (th : ThumbRes)
        (re : ReinitRes) (rest : List AttemptEnv),
      (.str "coordinates") ∉ elems →
      (calculate_indices (some (.arr elems)) (⟨.ok refreshed, g, th, re⟩ :: rest)).1
        = some ⟨400, errorBody "No coordinates provided"⟩) := by
  refine ⟨?_, ?_, ?_, ?_⟩
  · intro refreshed g th re rest
    have ht : tryBody (some .null) ⟨.ok refreshed, g, th, re⟩
        = .pyExn "argument of type NoneType is not iterable"
            (if refreshed then [.credRefresh] else []) := rfl
    simp only [calculate_indices, ht]
    rfl
  · intro refreshed g th re rest
    have ht : tryBody none ⟨.ok refreshed, g, th, re⟩
        = .pyExn "Failed to decode JSON object"
            (if refreshed then [.credRefresh] else []) := rfl
    simp only [calculate_indices, ht]
    rfl
  · intro coords idxVal refreshed th re rest hns
    cases idxVal with
    | str s => exact absurd rfl (hns s)
    | null =>
        have ht : tryBody (some (.obj [("coordinates", coords), ("index", .null)]))
            ⟨.ok refreshed, .ok, th, re⟩
            = .pyExn "NoneType object has no attribute upper"
                (if refreshed then [.credRefresh] else []) := rfl
        simp only [calculate_indices, ht]
        rfl
    | bool b =>
        have ht : tryBody (some (.obj [("coordinates", coords), ("index", .bool b)]))
            ⟨.ok refreshed, .ok, th, re⟩
            = .pyExn "bool object has no attribute upper"
                (if refreshed then [.credRefresh] else []) := rfl
        simp only [calculate_indices, ht]
        rfl
    | num n =>
        have ht : tryBody (some (.obj [("coordinates", coords), ("index", .num n)]))
            ⟨.ok refreshed, .ok, th, re⟩
            = .pyExn "int object has no attribute upper"
                (if refreshed then [.credRefresh] else []) := rfl
        simp only [calculate_indices, ht]
        rfl
    | arr xs =>
        have ht : tryBody (some (.obj [("coordinates", coords), ("index", .arr xs)]))
            ⟨.ok refreshed, .ok, th, re⟩
            = .pyExn "list object has no attribute upper"
                (if refreshed then [.credRefresh] else []) := rfl
        simp only [calculate_indices, ht]
        rfl
    | obj kvs =>
        have ht : tryBody (some (.obj [("coordinates", coords), ("index", .obj kvs)]))
            ⟨.ok refreshed, .ok, th, re⟩
            = .pyExn "dict object has no attribute upper"
                (if refreshed then [.credRefresh] else []) := rfl
        simp only [calculate_indices, ht]
        rfl
  · intro elems refreshed g th re rest hmem
    have hc : pyContains (.arr elems) "coordinates" = .ok false := by
      simp only [pyContains, Except.ok.injEq]
      rw [List.any_eq_false]
      intro x hx
      cases x <;> simp
      intro heq
      exact hmem (by rw [heq] at hx; exact hx)
    have ht : tryBody (some (.arr elems)) ⟨.ok refreshed, g, th, re⟩
        = .success ⟨400, errorBody "No coordinates provided"⟩
            (if refreshed then [.credRefresh] else []) := by
      simp [tryBody, hc]
    simp only [calculate_indices, ht]

theorem non_object_body_500_witness :
    ((∀ s : String, (Json.null) ≠ Json.str s)
      ∧ ((calculate_indices
          (some (.obj [("coordinates", .arr []), ("index", .null)]))
          [⟨.ok false, .ok, .ok "u", .ok⟩]).1.map Response.status) = some 500)
    ∧ (((.str "coordinates" : Json) ∉ ([] : List Json))
      ∧ (calculate_indices (some (.arr [])) [⟨.ok false, .ok, .ok "u", .ok⟩]).1
          = some ⟨400, errorBody "No coordinates provided"⟩) :=
  ⟨⟨fun s h => Json.noConfusion h,
      non_object_body_500.2.2.1 (.arr []) .null false (.ok "u") .ok []
        (fun s h => Json.noConfusion h)⟩,
    ⟨by simp,
      non_object_body_500.2.2.2 [] false .ok (.ok "u") .ok [] (by simp)⟩⟩
